import Mathlib

/-!
Shallow embedding of `idea-mill.js` (the CLI version of the script): the
random sampler `sample`, the stage-3 response ranker inside `spinOnce`
(JSON-shape normalization, validity filtering, score sorting, display
formatting, parse-failure recovery), and the `main` entry point's primer
loading and error handling.  JavaScript values produced by `JSON.parse`
(or `YAML.parse`) are modelled by the inductive type `JSON`; JavaScript
numbers are modelled by `JNum` (a rational, or `NaN`).  `Math.random`
draws are modelled by an explicit list of rationals supplied to `sample`.
-/

namespace IdeaMill

/-- A JavaScript number as it can appear in a parsed value: either an
actual numeric value (modelled as a rational) or `NaN`
(`typeof NaN === 'number'` in JavaScript, so `NaN` is a number here too). -/
inductive JNum where
  | val (q : ℚ)
  | nan

/-- A structured value as returned by `JSON.parse` / `YAML.parse`:
null, boolean, number, string, array, or object (a list of key/value
fields, in source order). -/
inductive JSON where
  | null
  | bool (b : Bool)
  | num (n : JNum)
  | str (s : String)
  | arr (elems : List JSON)
  | obj (fields : List (String × JSON))

/-- JavaScript property access `v.key` on a parsed value: on an object it
returns the field's value (for duplicate keys, `JSON.parse` keeps the last
occurrence, hence the lookup on the reversed field list); on any non-object
it yields `undefined`, modelled as `none`.  Access on `null` throws in
JavaScript; callers that can reach `null` handle that case themselves. -/
def getProp (v : JSON) (key : String) : Option JSON :=
  match v with
  | JSON.obj fields => fields.reverse.lookup key
  | _ => none

/-- JavaScript truthiness of a parsed value: `null`, `false`, `0`, `NaN`
and the empty string are falsy; every array and object (even empty) is
truthy. -/
def jsTruthy : JSON → Bool
  | JSON.null => false
  | JSON.bool b => b
  | JSON.num (JNum.val q) => decide (q ≠ 0)
  | JSON.num JNum.nan => false
  | JSON.str s => decide (s ≠ "")
  | JSON.arr _ => true
  | JSON.obj _ => true

/-- JavaScript `String(q)` applied to a number, restricted to the rationals of the
model: integers print with no decimal part exactly as in JavaScript; for
non-integral rationals we use Lean's rational notation (the scores the
program prints are sums of parsed JSON numbers, integral in every exercised
case). -/
def ratToString (q : ℚ) : String :=
  if q.den = 1 then toString q.num else toString q

mutual

/-- Template-literal stringification `${v}` of a parsed value, as in
JavaScript: strings verbatim, `null` as `"null"`, numbers via `String(n)`,
arrays joined by commas with null elements blank, plain objects as
`"[object Object]"`. -/
def jsDisplay : JSON → String
  | JSON.null => "null"
  | JSON.bool b => cond b "true" "false"
  | JSON.num (JNum.val q) => ratToString q
  | JSON.num JNum.nan => "NaN"
  | JSON.str s => s
  | JSON.arr xs => jsJoin xs
  | JSON.obj _ => "[object Object]"

/-- The join `Array.prototype.join(",")` used by array stringification: elements are
stringified, except that `null` elements become the empty string. -/
def jsJoin : List JSON → String
  | [] => ""
  | [JSON.null] => ""
  | [x] => jsDisplay x
  | JSON.null :: x :: xs => "," ++ jsJoin (x :: xs)
  | y :: x :: xs => jsDisplay y ++ "," ++ jsJoin (x :: xs)

end

/-- Stringification `${item.key}` of a property, `undefined` when the
property is absent (as the template literal renders it). -/
def propDisplay (item : JSON) (key : String) : String :=
  match getProp item key with
  | some v => jsDisplay v
  | none => "undefined"

/-- The condition `parsed.key && Array.isArray(parsed.key)` from the
response-shape dispatch in `spinOnce` (idea-mill.js lines 405-410): the
field must exist, be truthy, and be an array (every array is truthy, but
the truthiness test is kept as the source writes it). -/
def arrayField (v : JSON) (key : String) : Option (List JSON) :=
  match getProp v key with
  | some w =>
    if jsTruthy w then
      match w with
      | JSON.arr xs => some xs
      | _ => none
    else none
  | none => none

/-- Normalization of the parsed stage-3 value into `ideasArray`
(idea-mill.js lines 401-414): a bare array is used directly; otherwise the
first of the fields `ideas`, `results`, `result` holding an array is used;
otherwise the single parsed value is wrapped in a one-element array.
A parsed `null` throws a `TypeError` at the `parsed.ideas` access, which
the surrounding `try` converts into the parse-failure diagnostic, hence
the `Except.error` there. -/
def normalizeParsed (parsed : JSON) : Except String (List JSON) :=
  match parsed with
  | JSON.arr xs => Except.ok xs
  | JSON.null => Except.error "Cannot read properties of null (reading 'ideas')"
  | v =>
    match arrayField v "ideas" with
    | some xs => Except.ok xs
    | none =>
      match arrayField v "results" with
      | some xs => Except.ok xs
      | none =>
        match arrayField v "result" with
        | some xs => Except.ok xs
        | none => Except.ok [v]

/-- The test `typeof v === 'string'` on a property value (absent = `undefined`,
which is not a string). -/
def typeofString (v : Option JSON) : Bool :=
  match v with
  | some (JSON.str _) => true
  | _ => false

/-- The test `typeof v === 'number'` on a property value; `NaN` is a number. -/
def typeofNumber (v : Option JSON) : Bool :=
  match v with
  | some (JSON.num _) => true
  | _ => false

/-- The test `isNaN(v)` on a property value already known (by the preceding
`typeof` conjuncts of the filter) to be a number: true exactly on `NaN`. -/
def numIsNaN (v : Option JSON) : Bool :=
  match v with
  | some (JSON.num JNum.nan) => true
  | _ => false

/-- The validity filter from `spinOnce` (idea-mill.js lines 417-424):
`item && typeof item.idea === 'string' && typeof item.relevance === 'number'
&& typeof item.plausibility === 'number' && !isNaN(item.relevance) &&
!isNaN(item.plausibility)`. -/
def isValidIdea (item : JSON) : Bool :=
  jsTruthy item &&
  typeofString (getProp item "idea") &&
  typeofNumber (getProp item "relevance") &&
  typeofNumber (getProp item "plausibility") &&
  !numIsNaN (getProp item "relevance") &&
  !numIsNaN (getProp item "plausibility")

/-- The numeric value of a property, as used by the sort comparator and the
score display on entries that passed the validity filter (where both fields
are non-NaN numbers); other shapes never reach the comparator and default
to `0`. -/
def numField (item : JSON) (key : String) : ℚ :=
  match getProp item key with
  | some (JSON.num (JNum.val q)) => q
  | _ => 0

/-- The combined score `item.relevance + item.plausibility`. -/
def combinedScore (item : JSON) : ℚ :=
  numField item "relevance" + numField item "plausibility"

/-- The order imposed by the comparator `(a, b) => (b.relevance +
b.plausibility) - (a.relevance + a.plausibility)`: `a` may come before `b`
exactly when the comparator is non-positive, i.e. `b`'s combined score is
at most `a`'s (descending score order). -/
def scoreDesc (a b : JSON) : Prop :=
  combinedScore b ≤ combinedScore a

instance : DecidableRel scoreDesc :=
  fun a b => inferInstanceAs (Decidable (combinedScore b ≤ combinedScore a))

/-- The display string built for each of the top ideas (idea-mill.js lines
433-437): `${item.idea} [Score: ${score}/20]${reasoning}` where `reasoning`
is ` (${item.reasoning})` when `item.reasoning` is truthy and empty
otherwise. -/
def formatIdea (item : JSON) : String :=
  let score := combinedScore item
  let reasoning :=
    match getProp item "reasoning" with
    | some r => if jsTruthy r then " (" ++ jsDisplay r ++ ")" else ""
    | none => ""
  propDisplay item "idea" ++ " [Score: " ++ ratToString score ++ "/20]" ++ reasoning

/-- The ranking step applied to the normalized `ideasArray` (idea-mill.js
lines 417-439): filter to valid entries; if none remain, a single
diagnostic entry holding the raw stage-3 output; otherwise sort descending
by combined score, take the top 3, and format each for display.
`Array.prototype.sort` with a consistent comparator is a stable sort, and
every stable sort produces the same output list; it is modelled here by the
stable `List.insertionSort` under the comparator's order `scoreDesc`. -/
def rankValid (raw : String) (ideasArray : List JSON) : List String :=
  let validIdeas := ideasArray.filter isValidIdea
  if validIdeas.length = 0 then
    ["No valid ideas found in response. Raw output: " ++ raw]
  else
    ((validIdeas.insertionSort scoreDesc).take 3).map formatIdea

/-- The whole `try`/`catch` computing `best` in `spinOnce` (idea-mill.js
lines 397-442), as a function of the raw stage-3 output and the outcome of
`JSON.parse` on it: a parse failure (or the `TypeError` thrown on a parsed
`null`) is caught and becomes the one-element diagnostic
`Failed to parse ranking JSON: <message>. Raw output: <raw>`. -/
def rankBest (raw : String) (parseResult : Except String JSON) : List String :=
  match parseResult with
  | Except.error msg =>
    ["Failed to parse ranking JSON: " ++ msg ++ ". Raw output: " ++ raw]
  | Except.ok parsed =>
    match normalizeParsed parsed with
    | Except.error msg =>
      ["Failed to parse ranking JSON: " ++ msg ++ ". Raw output: " ++ raw]
    | Except.ok ideasArray => rankValid raw ideasArray

/-- The sampler `sample(arr, k)` (idea-mill.js lines 313-318): pair each element with a
random draw (`rs` lists the successive `Math.random()` values, one per
element), sort ascending by the draw with the stable `Array.prototype.sort`
(`(a, b) => a.r - b.r`, modelled by the stable `List.insertionSort`), take
the first `k` (`slice(0, k)`), and project the values back out. -/
def sample {α : Type} (arr : List α) (rs : List ℚ) (k : ℕ) : List α :=
  ((((arr.zip rs).insertionSort (fun a b => a.2 ≤ b.2)).take k).map Prod.fst)

/-! ### Heap model of `sample`

JavaScript arrays are mutable heap objects: `Array.prototype.sort` mutates
the array it is called on in place, while `map` and `slice` allocate fresh
arrays.  To state that `sample` never mutates its argument we model a small
heap of array objects and run `sample`'s method chain on it. -/

/-- An array object living on the heap during a `sample` call: either an
array of source elements or an array of `{v, r}` pairs built by the first
`map`. -/
inductive ArrObj (α : Type) where
  | elems (xs : List α)
  | pairs (xs : List (α × ℚ))

/-- The heap: array objects addressed by allocation index. -/
abbrev Heap (α : Type) := List (ArrObj α)

/-- Read the array object at address `i`. -/
def heapRead {α : Type} (h : Heap α) (i : ℕ) : Option (ArrObj α) :=
  h[i]?

/-- Allocate a fresh array object, returning its address and the grown
heap. -/
def heapAlloc {α : Type} (h : Heap α) (a : ArrObj α) : ℕ × Heap α :=
  (h.length, h ++ [a])

/-- Overwrite the array object at address `i` (in-place mutation). -/
def heapWrite {α : Type} (h : Heap α) (i : ℕ) (a : ArrObj α) : Heap α :=
  h.set i a

/-- The call `sample(arr, k)` run against the heap: the source array lives at
address `src`; `.map` allocates the fresh pairs array; `.sort` mutates that
fresh array in place; `.slice(0, k).map(o => o.v)` produces the result
value.  Returns `none` if `src` does not hold a source array. -/
def sampleOnHeap {α : Type} (h : Heap α) (src : ℕ) (rs : List ℚ) (k : ℕ) :
    Option (List α × Heap α) :=
  match heapRead h src with
  | some (ArrObj.elems arr) =>
    let pairs := arr.zip rs
    let alloc := heapAlloc h (ArrObj.pairs pairs)
    let sorted := pairs.insertionSort (fun a b => a.2 ≤ b.2)
    let h2 := heapWrite alloc.2 alloc.1 (ArrObj.pairs sorted)
    some ((sorted.take k).map Prod.fst, h2)
  | _ => none

/-! ### Model of `main` (idea-mill.js lines 461-488)

`main` reads the primer file, parses it as YAML, rejects a non-array
top-level value, and runs `spinOnce`; its whole body sits inside one
`try`/`catch` whose handler prints a cause-specific message and calls
`process.exit(1)`.  The promise returned by `main()` carries a final
`.catch` that prints `Idea‑mill encountered an error:` but does not change
the exit status.  File reading, YAML parsing and `spinOnce` are external
effects, so the model takes their outcomes as inputs. -/

/-- An error thrown inside `main`'s `try` block, as discriminated by the
`catch` handler: `error.code === 'ENOENT'` from `fs.readFile`,
`error.name === 'YAMLParseError'` from `YAML.parse`, or anything else
(e.g. a network failure thrown inside `spinOnce`), carrying its
`error.message`. -/
inductive JsError where
  | enoent
  | yamlParseError
  | generic (msg : String)

/-- The message printed by `main`'s `catch` handler for each error kind
(idea-mill.js lines 475-481). -/
def catchMessage (primerFile : String) : JsError → String
  | JsError.enoent => "Error: Primer file '" ++ primerFile ++ "' not found"
  | JsError.yamlParseError => "Error: Invalid YAML in primer file '" ++ primerFile ++ "'"
  | JsError.generic msg => "Error reading primer file: " ++ msg

/-- The message printed when the parsed primer is not an array
(idea-mill.js line 467). -/
def schemaMessage : String :=
  "Error: Primer file should contain a YAML array/sequence"

/-- The message printed by the final `.catch` on the `main()` promise
(idea-mill.js line 487). -/
def topLevelMessage : String :=
  "Idea‑mill encountered an error:"

/-- The observable outcome of a run of `main`: either `process.exit(code)`
after printing `errMessage`, or normal completion after `spinOnce` ran on
`pool` (the process then exits with status 0). -/
inductive MainResult where
  | exited (errMessage : String) (code : ℕ)
  | completed (pool : List JSON)

/-- The body of `main`'s `try` block (idea-mill.js lines 462-473), before
the `catch`: read the file, parse it, reject a non-array pool with the
schema message and `process.exit(1)`, then run `spinOnce` on the pool.
An `Except.error` is a thrown exception reaching the `catch`. -/
def mainTry (fileRes : Except JsError String)
    (yamlRes : String → Except JsError JSON)
    (spinRes : List JSON → Except JsError Unit) : Except JsError MainResult :=
  match fileRes with
  | Except.error e => Except.error e
  | Except.ok text =>
    match yamlRes text with
    | Except.error e => Except.error e
    | Except.ok parsed =>
      match parsed with
      | JSON.arr pool =>
        match spinRes pool with
        | Except.error e => Except.error e
        | Except.ok _ => Except.ok (MainResult.completed pool)
      | _ => Except.ok (MainResult.exited schemaMessage 1)

/-- The function `main` with its `catch` handler (idea-mill.js lines 461-484): every
exception thrown in the body is converted into a printed message and
`process.exit(1)`, so `main`'s promise never rejects. -/
def runMain (primerFile : String) (fileRes : Except JsError String)
    (yamlRes : String → Except JsError JSON)
    (spinRes : List JSON → Except JsError Unit) : MainResult :=
  match mainTry fileRes yamlRes spinRes with
  | Except.ok r => r
  | Except.error e => MainResult.exited (catchMessage primerFile e) 1

/-- The promise returned by `main()`: since the `catch` inside `main`
handles every exception, it always resolves. -/
def mainPromise (primerFile : String) (fileRes : Except JsError String)
    (yamlRes : String → Except JsError JSON)
    (spinRes : List JSON → Except JsError Unit) : Except JsError MainResult :=
  Except.ok (runMain primerFile fileRes yamlRes spinRes)

/-- The whole program `main().catch(...)` (idea-mill.js lines 486-488): a
rejection of `main()`'s promise would print the generic top-level message
and leave the exit status at 0; a resolution is the run's outcome. -/
def runProgram (primerFile : String) (fileRes : Except JsError String)
    (yamlRes : String → Except JsError JSON)
    (spinRes : List JSON → Except JsError Unit) : MainResult :=
  match mainPromise primerFile fileRes yamlRes spinRes with
  | Except.ok r => r
  | Except.error _ => MainResult.exited topLevelMessage 0

/-- The spec's description of a well-formed numeric field ("`relevance`/
`plausibility` are well-formed numbers (not NaN)"): the property exists, is
of number type, and is not `NaN`.  Its complement covers the claim's
"missing, non-numeric, or NaN". -/
def wellFormedNum (v : Option JSON) : Bool :=
  typeofNumber v && !numIsNaN v

instance : IsTotal JSON scoreDesc :=
  ⟨fun a b => le_total (combinedScore b) (combinedScore a)⟩

instance : IsTrans JSON scoreDesc :=
  ⟨fun _ _ _ h1 h2 => le_trans h2 h1⟩

/-- Example ranking entry with combined score 12. -/
def exampleScore12 : JSON :=
  JSON.obj [("idea", JSON.str "A"),
            ("relevance", JSON.num (JNum.val 6)),
            ("plausibility", JSON.num (JNum.val 6))]

/-- Example ranking entry with combined score 20, carrying a reasoning. -/
def exampleScore20 : JSON :=
  JSON.obj [("idea", JSON.str "B"),
            ("relevance", JSON.num (JNum.val 10)),
            ("plausibility", JSON.num (JNum.val 10)),
            ("reasoning", JSON.str "strong fit")]

/-- Example ranking entry with combined score 5. -/
def exampleScore5 : JSON :=
  JSON.obj [("idea", JSON.str "C"),
            ("relevance", JSON.num (JNum.val 2)),
            ("plausibility", JSON.num (JNum.val 3))]

/-- Example ranking entry with combined score 17. -/
def exampleScore17 : JSON :=
  JSON.obj [("idea", JSON.str "D"),
            ("relevance", JSON.num (JNum.val 9)),
            ("plausibility", JSON.num (JNum.val 8))]

/-! ## Theorems -/

/-- The sorted pairs list underlying a `sample` call. -/
def sampleSorted {α : Type} (arr : List α) (rs : List ℚ) : List (α × ℚ) :=
  (arr.zip rs).insertionSort (fun a b => a.2 ≤ b.2)

theorem sampleSorted_length {α : Type} (arr : List α) (rs : List ℚ)
    (hlen : rs.length = arr.length) : (sampleSorted arr rs).length = arr.length := by
  simp [sampleSorted, List.length_insertionSort, List.length_zip, hlen]

theorem sampleSorted_map_fst_perm {α : Type} (arr : List α) (rs : List ℚ)
    (hlen : rs.length = arr.length) :
    ((sampleSorted arr rs).map Prod.fst).Perm arr := by
  have h := (List.perm_insertionSort (fun a b : α × ℚ => a.2 ≤ b.2) (arr.zip rs)).map Prod.fst
  rwa [List.map_fst_zip arr rs (le_of_eq hlen.symm)] at h

/-- C5: for every list, every request `k ≤ n`, and every assignment of
random draws, the sampler returns exactly `k` elements, drawn from distinct
positions of the source list: each element occurs in the result at most as
often as in the source (so no position is reused), and every returned
element is present in the source. -/
theorem sample_draws_k_distinct_positions {α : Type} [DecidableEq α]
    (arr : List α) (rs : List ℚ) (k : ℕ)
    (hlen : rs.length = arr.length) (hk : k ≤ arr.length) :
    (sample arr rs k).length = k ∧
    (∀ a : α, (sample arr rs k).count a ≤ arr.count a) ∧
    (∀ x ∈ sample arr rs k, x ∈ arr) := by
  have hsub : (sample arr rs k).Sublist ((sampleSorted arr rs).map Prod.fst) :=
    (List.take_sublist k (sampleSorted arr rs)).map Prod.fst
  have hperm := sampleSorted_map_fst_perm arr rs hlen
  refine ⟨?_, ?_, ?_⟩
  · show (((sampleSorted arr rs).take k).map Prod.fst).length = k
    rw [List.length_map, List.length_take, sampleSorted_length arr rs hlen]
    exact min_eq_left hk
  · intro a
    calc (sample arr rs k).count a
        ≤ (((sampleSorted arr rs).map Prod.fst)).count a := hsub.count_le a
      _ = arr.count a := hperm.count_eq a
  · intro x hx
    exact hperm.subset (hsub.subset hx)

/-- C5 witness: sampling 2 of 3 elements with concrete draws. -/
theorem sample_draws_k_distinct_positions_witness :
    (sample [10, 20, 30] [(3 : ℚ), 1, 2] 2).length = 2 ∧
    (∀ a : ℕ, (sample [10, 20, 30] [(3 : ℚ), 1, 2] 2).count a ≤ [10, 20, 30].count a) ∧
    (∀ x ∈ sample [10, 20, 30] [(3 : ℚ), 1, 2] 2, x ∈ [10, 20, 30]) :=
  sample_draws_k_distinct_positions [10, 20, 30] [(3 : ℚ), 1, 2] 2 (by decide) (by decide)

/-- C6: when the request `k` exceeds the list length the sampler does not
fail: it returns all `n` source elements in some order (a permutation of
the source), hence fewer than `k` elements. -/
theorem sample_overdraw_returns_all {α : Type} (arr : List α) (rs : List ℚ) (k : ℕ)
    (hlen : rs.length = arr.length) (hk : arr.length < k) :
    (sample arr rs k).Perm arr ∧ (sample arr rs k).length = arr.length := by
  have htake : (sampleSorted arr rs).take k = sampleSorted arr rs :=
    List.take_of_length_le (by rw [sampleSorted_length arr rs hlen]; exact le_of_lt hk)
  have hperm := sampleSorted_map_fst_perm arr rs hlen
  have hsec : sample arr rs k = (sampleSorted arr rs).map Prod.fst := by
    show ((sampleSorted arr rs).take k).map Prod.fst = _
    rw [htake]
  constructor
  · rw [hsec]; exact hperm
  · rw [hsec, List.length_map, sampleSorted_length arr rs hlen]

/-- C6 witness: sampling 5 of 3 elements with concrete draws. -/
theorem sample_overdraw_returns_all_witness :
    (sample [10, 20, 30] [(3 : ℚ), 1, 2] 5).Perm [10, 20, 30] ∧
    (sample [10, 20, 30] [(3 : ℚ), 1, 2] 5).length = 3 :=
  sample_overdraw_returns_all [10, 20, 30] [(3 : ℚ), 1, 2] 5 (by decide) (by decide)

/-- C10: the sampler never mutates its input array.  In the heap model the
only in-place mutation of the call (`Array.prototype.sort`) hits the fresh
pairs array allocated by `map`, so after the call the source address still
holds the same elements in the same order, and the returned value is the
pure `sample`. -/
theorem sample_does_not_mutate_source {α : Type} (h : Heap α) (src : ℕ)
    (arr : List α) (rs : List ℚ) (k : ℕ)
    (hsrc : heapRead h src = some (ArrObj.elems arr)) :
    ∃ h2 : Heap α, sampleOnHeap h src rs k = some (sample arr rs k, h2) ∧
      heapRead h2 src = some (ArrObj.elems arr) := by
  have hlt : src < h.length := by
    have := List.getElem?_eq_some.mp hsrc
    exact this.1
  refine ⟨(h ++ [ArrObj.pairs (arr.zip rs)]).set h.length
      (ArrObj.pairs ((arr.zip rs).insertionSort (fun a b => a.2 ≤ b.2))), ?_, ?_⟩
  · unfold sampleOnHeap
    rw [hsrc]
    rfl
  · show heapRead _ src = _
    unfold heapRead at hsrc ⊢
    rw [List.getElem?_set_ne (Nat.ne_of_gt hlt), List.getElem?_append]
    rw [if_pos hlt]
    exact hsrc

/-- C10 witness: a concrete two-object heap whose source array survives a
`sample` call unchanged. -/
theorem sample_does_not_mutate_source_witness :
    ∃ h2 : Heap ℕ,
      sampleOnHeap [ArrObj.elems [1, 2]] 0 [(2 : ℚ), 1] 1 =
        some (sample [1, 2] [(2 : ℚ), 1] 1, h2) ∧
      heapRead h2 0 = some (ArrObj.elems [1, 2]) :=
  sample_does_not_mutate_source [ArrObj.elems [1, 2]] 0 [1, 2] [(2 : ℚ), 1] 1 rfl

/-- Unfolding of `normalizeParsed` on an object (the catch-all branch of
the source's shape dispatch). -/
theorem normalizeParsed_obj (fields : List (String × JSON)) :
    normalizeParsed (JSON.obj fields) =
      (match arrayField (JSON.obj fields) "ideas" with
       | some xs => Except.ok xs
       | none =>
         match arrayField (JSON.obj fields) "results" with
         | some xs => Except.ok xs
         | none =>
           match arrayField (JSON.obj fields) "result" with
           | some xs => Except.ok xs
           | none => Except.ok [JSON.obj fields]) := rfl

/-- C2: response-shape tolerance of the ranker.  A bare array is used
directly; an object holding an array under `ideas`, `results`, or `result`
contributes that array; any other object is wrapped in a one-element list —
so all shapes normalize to the same internal list when their contents
agree. -/
theorem normalize_response_shapes :
    (∀ xs : List JSON, normalizeParsed (JSON.arr xs) = Except.ok xs) ∧
    (∀ xs : List JSON,
      normalizeParsed (JSON.obj [("ideas", JSON.arr xs)]) = Except.ok xs) ∧
    (∀ xs : List JSON,
      normalizeParsed (JSON.obj [("results", JSON.arr xs)]) = Except.ok xs) ∧
    (∀ xs : List JSON,
      normalizeParsed (JSON.obj [("result", JSON.arr xs)]) = Except.ok xs) ∧
    (∀ fields : List (String × JSON),
      arrayField (JSON.obj fields) "ideas" = none →
      arrayField (JSON.obj fields) "results" = none →
      arrayField (JSON.obj fields) "result" = none →
      normalizeParsed (JSON.obj fields) = Except.ok [JSON.obj fields]) := by
  refine ⟨fun xs => rfl, fun xs => rfl, fun xs => rfl, fun xs => rfl, ?_⟩
  intro fields h1 h2 h3
  rw [normalizeParsed_obj, h1, h2, h3]

/-- C2 witness: a field-free object is wrapped in a one-element list. -/
theorem normalize_response_shapes_witness :
    normalizeParsed (JSON.obj [("foo", JSON.str "x")]) =
      Except.ok [JSON.obj [("foo", JSON.str "x")]] :=
  normalize_response_shapes.2.2.2.2 [("foo", JSON.str "x")] rfl rfl rfl

/-- C4: a stage-3 output that fails to parse is converted into a single
diagnostic placeholder string carrying the parse error message and the raw
output; the ranker returns it as its ordinary result instead of
propagating the failure. -/
theorem parse_failure_diagnostic (raw msg : String) :
    rankBest raw (Except.error msg) =
      ["Failed to parse ranking JSON: " ++ msg ++ ". Raw output: " ++ raw] ∧
    (rankBest raw (Except.error msg)).length = 1 ∧
    (∀ s ∈ rankBest raw (Except.error msg),
      msg.data <:+: s.data ∧ raw.data <:+: s.data) := by
  refine ⟨rfl, rfl, ?_⟩
  intro s hs
  have hseq : s = "Failed to parse ranking JSON: " ++ msg ++ ". Raw output: " ++ raw := by
    simpa [rankBest] using hs
  subst hseq
  constructor
  · rw [String.data_append, String.data_append, String.data_append]
    exact (List.infix_append _ _ _).trans (List.prefix_append _ _).isInfix
  · rw [String.data_append]
    exact (List.suffix_append _ _).isInfix

/-- C4 witness: the containment clause applied to the diagnostic produced
for a concrete unparsable output. -/
theorem parse_failure_diagnostic_witness :
    "Unexpected token".data <:+:
      ("Failed to parse ranking JSON: " ++ "Unexpected token" ++
        ". Raw output: " ++ "RAW").data ∧
    "RAW".data <:+:
      ("Failed to parse ranking JSON: " ++ "Unexpected token" ++
        ". Raw output: " ++ "RAW").data :=
  (parse_failure_diagnostic "RAW" "Unexpected token").2.2 _
    (by
      rw [(parse_failure_diagnostic "RAW" "Unexpected token").1]
      exact List.mem_singleton_self _)

/-- C3: the ranker excludes every entry whose `idea` field is not text or
whose `relevance` or `plausibility` field is missing, non-numeric, or NaN
(all covered by `wellFormedNum _ = false`); when the filter leaves no valid
entries, the result is the single diagnostic placeholder carrying the raw
stage-3 output, and the ranker never returns an empty result. -/
theorem filter_invalid_and_empty_diagnostic (raw : String) (l : List JSON) :
    (∀ e : JSON,
      (typeofString (getProp e "idea") = false ∨
       wellFormedNum (getProp e "relevance") = false ∨
       wellFormedNum (getProp e "plausibility") = false) →
      isValidIdea e = false) ∧
    (l.filter isValidIdea = [] →
      rankValid raw l = ["No valid ideas found in response. Raw output: " ++ raw]) ∧
    rankValid raw l ≠ [] := by
  refine ⟨?_, ?_, ?_⟩
  · intro e he
    unfold isValidIdea
    rcases he with h | h | h
    · simp [h]
    · cases htn : typeofNumber (getProp e "relevance") with
      | false => simp [htn]
      | true =>
        cases hnn : numIsNaN (getProp e "relevance") with
        | false => simp [wellFormedNum, htn, hnn] at h
        | true => simp [hnn]
    · cases htn : typeofNumber (getProp e "plausibility") with
      | false => simp [htn]
      | true =>
        cases hnn : numIsNaN (getProp e "plausibility") with
        | false => simp [wellFormedNum, htn, hnn] at h
        | true => simp [hnn]
  · intro h
    simp [rankValid, h]
  · by_cases h0 : (l.filter isValidIdea).length = 0
    · simp [rankValid, h0]
    · simp only [rankValid, if_neg h0]
      intro hc
      rw [List.map_eq_nil_iff] at hc
      rcases List.take_eq_nil_iff.mp hc with h3 | hnil
      · exact absurd h3 (by decide)
      · apply h0
        rw [← List.length_insertionSort scoreDesc (l.filter isValidIdea), hnil]
        rfl

/-- C3 witness: an entry whose `idea` is a number is excluded, and a list
holding only it produces the diagnostic placeholder. -/
theorem filter_invalid_and_empty_diagnostic_witness :
    isValidIdea (JSON.obj [("idea", JSON.num (JNum.val 1))]) = false ∧
    rankValid "raw" [JSON.obj [("idea", JSON.num (JNum.val 1))]] =
      ["No valid ideas found in response. Raw output: raw"] :=
  ⟨(filter_invalid_and_empty_diagnostic "raw"
      [JSON.obj [("idea", JSON.num (JNum.val 1))]]).1 _ (Or.inl rfl),
   (filter_invalid_and_empty_diagnostic "raw"
      [JSON.obj [("idea", JSON.num (JNum.val 1))]]).2.1 rfl⟩

/-- C9: when filtering leaves at least one but fewer than three valid
entries, the ranker returns exactly those valid entries — as many as there
are, not a diagnostic placeholder and not padded to 3 — sorted in
descending order of combined score. -/
theorem ranker_returns_all_when_under_three (raw : String) (l : List JSON)
    (h1 : l.filter isValidIdea ≠ []) (h3 : (l.filter isValidIdea).length < 3) :
    ∃ v : List JSON, v.Perm (l.filter isValidIdea) ∧ List.Sorted scoreDesc v ∧
      rankValid raw l = v.map formatIdea ∧
      (rankValid raw l).length = (l.filter isValidIdea).length := by
  have h0 : ¬ (l.filter isValidIdea).length = 0 :=
    fun h => h1 (List.length_eq_zero.mp h)
  have hlen : ((l.filter isValidIdea).insertionSort scoreDesc).length ≤ 3 := by
    rw [List.length_insertionSort]
    exact le_of_lt h3
  refine ⟨(l.filter isValidIdea).insertionSort scoreDesc,
    List.perm_insertionSort _ _, List.sorted_insertionSort _ _, ?_, ?_⟩
  · simp only [rankValid, if_neg h0]
    rw [List.take_of_length_le hlen]
  · simp only [rankValid, if_neg h0]
    rw [List.take_of_length_le hlen, List.length_map, List.length_insertionSort]

/-- C9 witness: a list with two valid entries. -/
theorem ranker_returns_all_when_under_three_witness :
    ∃ v : List JSON, v.Perm ([exampleScore12, exampleScore20].filter isValidIdea) ∧
      List.Sorted scoreDesc v ∧
      rankValid "RAW" [exampleScore12, exampleScore20] = v.map formatIdea ∧
      (rankValid "RAW" [exampleScore12, exampleScore20]).length =
        ([exampleScore12, exampleScore20].filter isValidIdea).length :=
  ranker_returns_all_when_under_three "RAW" [exampleScore12, exampleScore20]
    (by
      have hf : [exampleScore12, exampleScore20].filter isValidIdea =
          [exampleScore12, exampleScore20] := by with_unfolding_all rfl
      rw [hf]
      exact List.cons_ne_nil _ _)
    (by
      have hf : [exampleScore12, exampleScore20].filter isValidIdea =
          [exampleScore12, exampleScore20] := by with_unfolding_all rfl
      rw [hf]
      decide)

/-- C1: on a parsed ranking array the ranker sorts the valid entries in
descending order of `relevance + plausibility`, takes the first 3, and
formats each as `<idea> [Score: <score>/20]` with the reasoning appended in
parentheses when present; on the example entries with combined scores
{12, 20, 5, 17} the result is the 20-, 17-, and 12-scored entries in that
order. -/
theorem ranker_sorts_scores_and_formats_top3 :
    (∀ (raw : String) (l : List JSON), l.filter isValidIdea ≠ [] →
      ∃ v : List JSON, v.Perm (l.filter isValidIdea) ∧ List.Sorted scoreDesc v ∧
        rankBest raw (Except.ok (JSON.arr l)) = (v.take 3).map formatIdea) ∧
    (∀ (e : JSON) (s : String), getProp e "idea" = some (JSON.str s) →
      (getProp e "reasoning" = none →
        formatIdea e = s ++ " [Score: " ++ ratToString (combinedScore e) ++ "/20]") ∧
      (∀ r : String, r ≠ "" → getProp e "reasoning" = some (JSON.str r) →
        formatIdea e =
          s ++ " [Score: " ++ ratToString (combinedScore e) ++ "/20]" ++ " (" ++ r ++ ")")) ∧
    rankBest "RAW"
        (Except.ok (JSON.arr [exampleScore12, exampleScore20, exampleScore5, exampleScore17])) =
      ["B [Score: 20/20] (strong fit)", "D [Score: 17/20]", "A [Score: 12/20]"] := by
  refine ⟨?_, ?_, by with_unfolding_all rfl⟩
  · intro raw l h1
    have h0 : ¬ (l.filter isValidIdea).length = 0 :=
      fun h => h1 (List.length_eq_zero.mp h)
    refine ⟨(l.filter isValidIdea).insertionSort scoreDesc,
      List.perm_insertionSort _ _, List.sorted_insertionSort _ _, ?_⟩
    show rankValid raw l = _
    simp only [rankValid, if_neg h0]
  · intro e s hidea
    constructor
    · intro hnone
      simp only [formatIdea, propDisplay, hidea, hnone]
      rw [show jsDisplay (JSON.str s) = s from rfl, String.append_empty]
    · intro r hr hsome
      simp only [formatIdea, propDisplay, hidea, hsome]
      simp [jsTruthy, jsDisplay, hr, String.append_assoc]
      rw [← String.append_assoc "/20]" " (" (r ++ ")"),
        show ("/20]" ++ " (" : String) = "/20] (" from rfl]

/-- C1 witness: the general sorting statement applied to the example
list. -/
theorem ranker_sorts_scores_and_formats_top3_witness :
    ∃ v : List JSON,
      v.Perm ([exampleScore12, exampleScore20, exampleScore5,
        exampleScore17].filter isValidIdea) ∧
      List.Sorted scoreDesc v ∧
      rankBest "RAW"
          (Except.ok (JSON.arr [exampleScore12, exampleScore20, exampleScore5,
            exampleScore17])) =
        (v.take 3).map formatIdea :=
  ranker_sorts_scores_and_formats_top3.1 "RAW"
    [exampleScore12, exampleScore20, exampleScore5, exampleScore17]
    (by
      have hf : [exampleScore12, exampleScore20, exampleScore5,
          exampleScore17].filter isValidIdea =
          [exampleScore12, exampleScore20, exampleScore5, exampleScore17] := by
        with_unfolding_all rfl
      rw [hf]
      exact List.cons_ne_nil _ _)

/-- Two strings with distinct prefixes (witnessed on the first `n`
characters) stay distinct after appending arbitrary tails. -/
theorem append_ne_append {p₁ p₂ : String} (t₁ t₂ : String) (n : ℕ)
    (hn₁ : n ≤ p₁.data.length) (hn₂ : n ≤ p₂.data.length)
    (hne : p₁.data.take n ≠ p₂.data.take n) : p₁ ++ t₁ ≠ p₂ ++ t₂ := by
  intro he
  apply hne
  have hd := congrArg String.data he
  rw [String.data_append, String.data_append] at hd
  have ht := congrArg (List.take n) hd
  rwa [List.take_append_of_le_length hn₁, List.take_append_of_le_length hn₂] at ht

/-- A string starting with prefix `p` differs from any string whose first
`n` characters differ from `p`'s. -/
theorem append_ne_string {p : String} (tail t : String) (n : ℕ)
    (hn : n ≤ p.data.length) (hne : p.data.take n ≠ t.data.take n) :
    p ++ tail ≠ t := by
  intro he
  apply hne
  have hd := congrArg String.data he
  rw [String.data_append] at hd
  have ht := congrArg (List.take n) hd
  rwa [List.take_append_of_le_length hn] at ht

/-- Unfolding of `mainTry` when the file read succeeds. -/
theorem mainTry_ok (text : String) (yamlRes : String → Except JsError JSON)
    (spinRes : List JSON → Except JsError Unit) :
    mainTry (Except.ok text) yamlRes spinRes =
      (match yamlRes text with
       | Except.error e => Except.error e
       | Except.ok parsed =>
         match parsed with
         | JSON.arr pool =>
           match spinRes pool with
           | Except.error e => Except.error e
           | Except.ok _ => Except.ok (MainResult.completed pool)
         | _ => Except.ok (MainResult.exited schemaMessage 1)) := rfl

/-- Unfolding of `mainTry` when the file read and the YAML parse succeed
with an array pool. -/
theorem mainTry_arr (text : String) (yamlRes : String → Except JsError JSON)
    (spinRes : List JSON → Except JsError Unit) (pool : List JSON)
    (hy : yamlRes text = Except.ok (JSON.arr pool)) :
    mainTry (Except.ok text) yamlRes spinRes =
      (match spinRes pool with
       | Except.error e => Except.error e
       | Except.ok _ => Except.ok (MainResult.completed pool)) := by
  rw [mainTry_ok, hy]

/-- C7: the primer loader exits with code 1 and a not-found message when
the file is missing, an invalid-YAML message when parsing fails, and a
schema message when the parsed value is not an array; the three messages
are pairwise distinct; and on success the loaded list is passed to the
pipeline unchanged. -/
theorem primer_loader_error_cases (path : String)
    (yamlRes : String → Except JsError JSON)
    (spinRes : List JSON → Except JsError Unit) :
    (runProgram path (Except.error JsError.enoent) yamlRes spinRes =
      MainResult.exited ("Error: Primer file '" ++ path ++ "' not found") 1) ∧
    (∀ text, yamlRes text = Except.error JsError.yamlParseError →
      runProgram path (Except.ok text) yamlRes spinRes =
        MainResult.exited ("Error: Invalid YAML in primer file '" ++ path ++ "'") 1) ∧
    (∀ text parsed, yamlRes text = Except.ok parsed →
      (∀ pool, parsed ≠ JSON.arr pool) →
      runProgram path (Except.ok text) yamlRes spinRes =
        MainResult.exited "Error: Primer file should contain a YAML array/sequence" 1) ∧
    (∀ text pool, yamlRes text = Except.ok (JSON.arr pool) →
      spinRes pool = Except.ok () →
      runProgram path (Except.ok text) yamlRes spinRes = MainResult.completed pool) ∧
    ("Error: Primer file '" ++ path ++ "' not found" ≠
      "Error: Invalid YAML in primer file '" ++ path ++ "'") ∧
    ("Error: Primer file '" ++ path ++ "' not found" ≠
      "Error: Primer file should contain a YAML array/sequence") ∧
    ("Error: Invalid YAML in primer file '" ++ path ++ "'" ≠
      "Error: Primer file should contain a YAML array/sequence") := by
  refine ⟨rfl, ?_, ?_, ?_, ?_, ?_, ?_⟩
  · intro text hy
    unfold runProgram mainPromise runMain
    rw [mainTry_ok, hy]
    rfl
  · intro text parsed hy hno
    unfold runProgram mainPromise runMain
    rw [mainTry_ok, hy]
    cases parsed with
    | arr pool => exact absurd rfl (hno pool)
    | null => rfl
    | bool b => rfl
    | num n => rfl
    | str s => rfl
    | obj fields => rfl
  · intro text pool hy hs
    unfold runProgram mainPromise runMain
    rw [mainTry_arr text yamlRes spinRes pool hy, hs]
  · rw [String.append_assoc, String.append_assoc]
    exact append_ne_append _ _ 8 (by decide) (by decide) (by decide)
  · rw [String.append_assoc]
    exact append_ne_string _ _ 20 (by decide) (by decide)
  · rw [String.append_assoc]
    exact append_ne_string _ _ 8 (by decide) (by decide)

/-- C7 witness: the three error cases and the success case at concrete
inputs. -/
theorem primer_loader_error_cases_witness :
    (runProgram "./primer.yaml" (Except.error JsError.enoent)
        (fun _ => Except.ok (JSON.arr [])) (fun _ => Except.ok ()) =
      MainResult.exited "Error: Primer file './primer.yaml' not found" 1) ∧
    (runProgram "./primer.yaml" (Except.ok "bad: [yaml")
        (fun _ => Except.error JsError.yamlParseError) (fun _ => Except.ok ()) =
      MainResult.exited "Error: Invalid YAML in primer file './primer.yaml'" 1) ∧
    (runProgram "./primer.yaml" (Except.ok "pool: 3")
        (fun _ => Except.ok (JSON.num (JNum.val 3))) (fun _ => Except.ok ()) =
      MainResult.exited "Error: Primer file should contain a YAML array/sequence" 1) ∧
    (runProgram "./primer.yaml" (Except.ok "- snippet")
        (fun _ => Except.ok (JSON.arr [JSON.str "snippet"])) (fun _ => Except.ok ()) =
      MainResult.completed [JSON.str "snippet"]) := by
  refine ⟨?_, ?_, ?_, ?_⟩
  · have h := (primer_loader_error_cases "./primer.yaml"
      (fun _ => Except.ok (JSON.arr [])) (fun _ => Except.ok ())).1
    simpa using h
  · have h := (primer_loader_error_cases "./primer.yaml"
      (fun _ => Except.error JsError.yamlParseError) (fun _ => Except.ok ())).2.1
      "bad: [yaml" rfl
    simpa using h
  · exact (primer_loader_error_cases "./primer.yaml"
      (fun _ => Except.ok (JSON.num (JNum.val 3))) (fun _ => Except.ok ())).2.2.1
      "pool: 3" (JSON.num (JNum.val 3)) rfl (fun pool h => JSON.noConfusion h)
  · exact (primer_loader_error_cases "./primer.yaml"
      (fun _ => Except.ok (JSON.arr [JSON.str "snippet"])) (fun _ => Except.ok ())).2.2.2.1
      "- snippet" [JSON.str "snippet"] rfl rfl

/-- C8 counterexample: a network failure thrown during a stage call is
caught by the `catch` inside `main`, not by the top-level handler: the run
exits with the file-reading message `Error reading primer file: connect
ETIMEDOUT`, which is not the generic top-level failure message. -/
theorem network_error_not_reported_generically :
    runProgram "./primer.yaml" (Except.ok "- snippet")
        (fun _ => Except.ok (JSON.arr [JSON.str "snippet"]))
        (fun _ => Except.error (JsError.generic "connect ETIMEDOUT")) =
      MainResult.exited ("Error reading primer file: connect ETIMEDOUT") 1 ∧
    ("Error reading primer file: connect ETIMEDOUT" ≠ topLevelMessage) :=
  ⟨rfl, by decide⟩

/-- C8 (amended): every error raised in the pipeline after argument
parsing is caught by the `catch` inside `main`, which exits with status 1
(so every run either completes or exits 1); the exit message is never the
generic top-level message — in particular a network failure during a stage
call is reported as `Error reading primer file: <message>` — because the
top-level rejection handler (which would print the generic message without
a non-zero status) is never reached. -/
theorem pipeline_errors_exit_one (path : String)
    (fileRes : Except JsError String) (yamlRes : String → Except JsError JSON)
    (spinRes : List JSON → Except JsError Unit) :
    ((∃ pool, runProgram path fileRes yamlRes spinRes = MainResult.completed pool) ∨
     (∃ m, runProgram path fileRes yamlRes spinRes = MainResult.exited m 1)) ∧
    (∀ m c, runProgram path fileRes yamlRes spinRes = MainResult.exited m c →
      c = 1 ∧ m ≠ topLevelMessage) ∧
    (∀ text pool msg, fileRes = Except.ok text →
      yamlRes text = Except.ok (JSON.arr pool) →
      spinRes pool = Except.error (JsError.generic msg) →
      runProgram path fileRes yamlRes spinRes =
        MainResult.exited ("Error reading primer file: " ++ msg) 1) := by
  have hmsg : ∀ e : JsError, catchMessage path e ≠ topLevelMessage := by
    intro e
    cases e with
    | enoent =>
      show "Error: Primer file '" ++ path ++ "' not found" ≠ _
      rw [String.append_assoc]
      exact append_ne_string _ _ 1 (by decide) (by decide)
    | yamlParseError =>
      show "Error: Invalid YAML in primer file '" ++ path ++ "'" ≠ _
      rw [String.append_assoc]
      exact append_ne_string _ _ 1 (by decide) (by decide)
    | generic msg =>
      exact append_ne_string _ _ 1 (by decide) (by decide)
  have hcases :
      (∃ pool, runProgram path fileRes yamlRes spinRes = MainResult.completed pool) ∨
      (∃ e, runProgram path fileRes yamlRes spinRes =
        MainResult.exited (catchMessage path e) 1) ∨
      runProgram path fileRes yamlRes spinRes = MainResult.exited schemaMessage 1 := by
    cases fileRes with
    | error e => exact Or.inr (Or.inl ⟨e, rfl⟩)
    | ok text =>
      cases hy : yamlRes text with
      | error e =>
        refine Or.inr (Or.inl ⟨e, ?_⟩)
        unfold runProgram mainPromise runMain
        rw [mainTry_ok, hy]
      | ok parsed =>
        cases parsed with
        | arr pool =>
          cases hs : spinRes pool with
          | error e =>
            refine Or.inr (Or.inl ⟨e, ?_⟩)
            unfold runProgram mainPromise runMain
            rw [mainTry_arr text yamlRes spinRes pool hy, hs]
          | ok u =>
            refine Or.inl ⟨pool, ?_⟩
            unfold runProgram mainPromise runMain
            rw [mainTry_arr text yamlRes spinRes pool hy, hs]
        | null =>
          refine Or.inr (Or.inr ?_)
          unfold runProgram mainPromise runMain
          rw [mainTry_ok, hy]
        | bool b =>
          refine Or.inr (Or.inr ?_)
          unfold runProgram mainPromise runMain
          rw [mainTry_ok, hy]
        | num n =>
          refine Or.inr (Or.inr ?_)
          unfold runProgram mainPromise runMain
          rw [mainTry_ok, hy]
        | str s =>
          refine Or.inr (Or.inr ?_)
          unfold runProgram mainPromise runMain
          rw [mainTry_ok, hy]
        | obj fields =>
          refine Or.inr (Or.inr ?_)
          unfold runProgram mainPromise runMain
          rw [mainTry_ok, hy]
  refine ⟨?_, ?_, ?_⟩
  · rcases hcases with ⟨pool, h⟩ | ⟨e, h⟩ | h
    · exact Or.inl ⟨pool, h⟩
    · exact Or.inr ⟨catchMessage path e, h⟩
    · exact Or.inr ⟨schemaMessage, h⟩
  · intro m c h
    rcases hcases with ⟨pool, h2⟩ | ⟨e, h2⟩ | h2
    · rw [h] at h2; exact MainResult.noConfusion h2
    · rw [h] at h2
      have hm := (MainResult.exited.injEq _ _ _ _).mp h2
      refine ⟨hm.2, ?_⟩
      rw [hm.1]
      exact hmsg e
    · rw [h] at h2
      have hm := (MainResult.exited.injEq _ _ _ _).mp h2
      refine ⟨hm.2, ?_⟩
      rw [hm.1]
      show schemaMessage ≠ topLevelMessage
      decide
  · intro text pool msg hf hy hs
    subst hf
    unfold runProgram mainPromise runMain
    rw [mainTry_arr text yamlRes spinRes pool hy, hs]
    rfl

/-- C8 amended-claim witness: the spin-failure clause applied at a concrete
network error. -/
theorem pipeline_errors_exit_one_witness :
    runProgram "./primer.yaml" (Except.ok "- snippet")
        (fun _ => Except.ok (JSON.arr [JSON.str "snippet"]))
        (fun _ => Except.error (JsError.generic "boom")) =
      MainResult.exited ("Error reading primer file: " ++ "boom") 1 :=
  (pipeline_errors_exit_one "./primer.yaml" (Except.ok "- snippet")
      (fun _ => Except.ok (JSON.arr [JSON.str "snippet"]))
      (fun _ => Except.error (JsError.generic "boom"))).2.2
    "- snippet" [JSON.str "snippet"] "boom" rfl rfl rfl

end IdeaMill

